import Mathlib

/-!
Verification development for the mlox GUI log-capture-and-markup pipeline
(`mlox/qtGui.py`).

The Python module's `colorize_text` applies an ordered list of
`re.sub` rewrites.  Every quantifier in those patterns (`*`, `+`, `?`,
`{2}`, `{3}`) applies to a single-character matcher, so the patterns are
embedded with a small total backtracking engine over an AST whose
quantifiers take character classes.  Python semantics that matter here and
are reproduced:

* `re.MULTILINE`: `^` matches at the start of the text or right after a
  newline, `$` matches at the end of the text or right before a newline;
* `.` matches any character except a newline;
* `re.sub` rewrites the leftmost match, then continues scanning the
  original text immediately after the matched extent;
* greedy quantifiers consume as much as possible and give back on
  backtracking;
* `re.IGNORECASE` (and the inline `(?i)`) compare letters case-insensitively.

The logging wiring of `MloxGui.__init__` (three handlers on the root
logger), the orchestration of `MloxGui.analyze_loadorder` and
`MloxGui.commit` are embedded as pure state-passing functions further down.
-/

/-- Characters matched by Python's `\s` on ASCII text. -/
def wsChar (c : Char) : Bool :=
  c == ' ' || c == '\t' || c == '\n' || c == '\r' || c == '\x0b' || c == '\x0c'

/-- Single-character matchers: literals (optionally case-insensitive,
for `re.IGNORECASE` / `(?i)`), `.`, `\s`, `[^\s]`, `\d`, negated sets such
as `[^!]`, and case-insensitive sets such as `[mp]`. -/
inductive CC where
  | lit (c : Char)
  | litCI (c : Char)
  | anyNotNl
  | ws
  | notWs
  | digit
  | notInSet (cs : List Char)
  | inSetCI (cs : List Char)
deriving Repr, DecidableEq

def ccMatch : CC → Char → Bool
  | .lit c, x => x == c
  | .litCI c, x => x.toLower == c.toLower
  | .anyNotNl, x => x != '\n'
  | .ws, x => wsChar x
  | .notWs, x => !wsChar x
  | .digit, x => x.isDigit
  | .notInSet cs, x => !cs.contains x
  | .inSetCI cs, x => cs.contains x.toLower

/-- Regex AST.  `starCC`/`optCC` are the greedy `*` and `?` restricted to
single-character classes (`{n}` repetition is unrolled as `seq`);
`bol`/`eol` are the `re.MULTILINE` anchors `^`/`$`. -/
inductive RE where
  | eps
  | cc (c : CC)
  | seq (a b : RE)
  | starCC (c : CC)
  | optCC (c : CC)
  | bol
  | eol
deriving Repr, DecidableEq

/-- True at a `$` position: end of text or right before a newline. -/
def eolAt : List Char → Bool
  | [] => true
  | x :: _ => x == '\n'

/-- Greedy match of `c*`: consume as many matching characters as possible,
giving characters back (backtracking) when the continuation fails.  The
`Bool` tracks whether the last consumed character was a newline (so that a
following `^` knows it sits at a line start). -/
def starCCMatch (c : CC) (k : Bool → List Char → Option (List Char × Bool)) :
    Bool → List Char → Option (List Char × Bool)
  | b, [] => k b []
  | b, x :: xs =>
    if ccMatch c x then
      match starCCMatch c k (x == '\n') xs with
      | some r => some r
      | none => k b (x :: xs)
    else k b (x :: xs)

/-- Backtracking matcher in continuation-passing style.  `b` is true iff
the current position is at the start of the text or right after a newline.
The continuation receives the updated flag and the remaining input;
alternatives are tried in the priority order of Python's engine (greedy
first), and the first success wins. -/
def reMatch : RE → Bool → List Char → (Bool → List Char → Option (List Char × Bool)) →
    Option (List Char × Bool)
  | .eps, b, s, k => k b s
  | .cc c, _, s, k =>
    match s with
    | [] => none
    | x :: xs => if ccMatch c x then k (x == '\n') xs else none
  | .seq a a2, b, s, k => reMatch a b s (fun b2 s2 => reMatch a2 b2 s2 k)
  | .starCC c, b, s, k => starCCMatch c k b s
  | .optCC c, b, s, k =>
    match s with
    | [] => k b []
    | x :: xs =>
      if ccMatch c x then
        match k (x == '\n') xs with
        | some r => some r
        | none => k b (x :: xs)
      else k b (x :: xs)
  | .bol, b, s, k => if b then k b s else none
  | .eol, b, s, k => if eolAt s then k b s else none

/-- Try to match `r` at the current position; on success return the rest of
the input after the match and the line-start flag for that position. -/
def tryMatch (r : RE) (b : Bool) (s : List Char) : Option (List Char × Bool) :=
  reMatch r b s (fun b2 s2 => some (s2, b2))

/-- One `re.sub` pass: scan left to right; at each position try the
pattern; on a (necessarily nonempty, for the patterns of this file) match,
emit `f` of the matched extent and resume after it, otherwise copy one
character.  `fuel` bounds the number of scan steps; the callers pass the
text length, which suffices because every step consumes at least one
character.  The `n = 0` guard only protects termination accounting and is
never taken by the patterns of this file, none of which matches the empty
string. -/
def subScan (r : RE) (f : List Char → List Char) : Nat → Bool → List Char → List Char
  | _, _, [] => []
  | 0, _, s => s
  | fuel + 1, b, c :: cs =>
    match tryMatch r b (c :: cs) with
    | some (rest, b2) =>
      let n := (c :: cs).length - rest.length
      if n = 0 then c :: subScan r f fuel (c == '\n') cs
      else f ((c :: cs).take n) ++ subScan r f fuel b2 rest
    | none => c :: subScan r f fuel (c == '\n') cs

/-- `re.compile(r).sub(f, s)` for the single-pattern engines above. -/
def reSub (r : RE) (f : List Char → List Char) (s : List Char) : List Char :=
  subScan r f s.length true s

/-- Same scan as `subScan`, reporting whether the pattern matches anywhere. -/
def hasMatchAux (r : RE) : Nat → Bool → List Char → Bool
  | _, _, [] => false
  | 0, _, _ => false
  | fuel + 1, b, c :: cs =>
    (tryMatch r b (c :: cs)).isSome || hasMatchAux r fuel (c == '\n') cs

def hasMatch (r : RE) (s : List Char) : Bool :=
  hasMatchAux r s.length true s

/-- Concatenation of literal characters, as a regex. -/
def litStr (s : String) : RE :=
  s.data.foldr (fun c r => .seq (.cc (.lit c)) r) .eps

/-- Case-insensitive literal (for the `re.IGNORECASE` patterns). -/
def litStrCI (s : String) : RE :=
  s.data.foldr (fun c r => .seq (.cc (.litCI c)) r) .eps

/-- `l` without its last `n` elements. -/
def takeAllButLast (n : Nat) (l : List Char) : List Char :=
  l.take (l.length - n)

/-!
The `highlighters` list of `colorize_text` (qtGui.py lines 38-55), one
pattern/replacement pair per entry, in source order.  Replacement templates
become functions of the matched extent (`\g<0>`); only the hide rule uses
`\g<1>`, whose extent is the whole match minus the fixed-width `<hide>` and
`</hide>` delimiters.
-/

/-- `<span style='background-color: COLOR;'>\g<0></span>` — the shape shared
by every entry of the `bg_colors` dictionary. -/
def bgSpan (color : String) (m : List Char) : List Char :=
  ("<span style=\x27background-color: " ++ color ++ ";\x27>").data ++ m ++ "</span>".data

def bg_colors_low : List Char → List Char := bgSpan "rgb(255,180,180)"
def bg_colors_medium : List Char → List Char := bgSpan "rgb(255,255,180)"
def bg_colors_high : List Char → List Char := bgSpan "rgb(125,220,240)"
def bg_colors_green : List Char → List Char := bgSpan "rgb(80,200,120)"
def bg_colors_yellow : List Char → List Char := bgSpan "yellow"
def bg_colors_red : List Char → List Char := bgSpan "rgb(238,75,43)"

/-- `r'<hide>(.*)</hide>'` -/
def hideRe : RE := .seq (litStr "<hide>") (.seq (.starCC .anyNotNl) (litStr "</hide>"))

/-- `"<span style='color: black; background-color: black;'>\g<1></span>"`;
group 1 is the match without the 6-character `<hide>` and 7-character
`</hide>` delimiters. -/
def hideRepl (m : List Char) : List Char :=
  "<span style=\x27color: black; background-color: black;\x27>".data ++
    takeAllButLast 7 (m.drop 6) ++ "</span>".data

/-- `r'^(SUCCESS:.*)'` with `re.MULTILINE` -/
def successRe : RE := .seq .bol (.seq (litStr "SUCCESS:") (.starCC .anyNotNl))

/-- `r'^(\[CONFLICT])'` with `re.MULTILINE` -/
def conflictRe : RE := .seq .bol (litStr "[CONFLICT]")

/-- `r'(https?://[^\s]*)'` with `re.IGNORECASE` -/
def urlRe : RE :=
  .seq (litStrCI "http") (.seq (.optCC (.litCI 's')) (.seq (litStr "://") (.starCC .notWs)))

/-- `"<a href='\g<0>'>\g<0></a>"` -/
def urlRepl (m : List Char) : List Char :=
  "<a href=\x27".data ++ m ++ "\x27>".data ++ m ++ "</a>".data

/-- `r"^(\s*\|?\s*![^!].*)$"` with `re.MULTILINE` — `'!'` in mlox_base.txt -/
def excl1Re : RE :=
  .seq .bol (.seq (.starCC .ws) (.seq (.optCC (.lit '|')) (.seq (.starCC .ws)
    (.seq (.cc (.lit '!')) (.seq (.cc (.notInSet ['!'])) (.seq (.starCC .anyNotNl) .eol))))))

/-- `r"^(\s*\|?\s*!{2}.*)$"` with `re.MULTILINE` — `'!!'` in mlox_base.txt -/
def excl2Re : RE :=
  .seq .bol (.seq (.starCC .ws) (.seq (.optCC (.lit '|')) (.seq (.starCC .ws)
    (.seq (.cc (.lit '!')) (.seq (.cc (.lit '!')) (.seq (.starCC .anyNotNl) .eol))))))

/-- `r"^(\s*\|?\s*!{3}.*)$"` with `re.MULTILINE` — `'!!!'` in mlox_base.txt -/
def excl3Re : RE :=
  .seq .bol (.seq (.starCC .ws) (.seq (.optCC (.lit '|')) (.seq (.starCC .ws)
    (.seq (.cc (.lit '!')) (.seq (.cc (.lit '!')) (.seq (.cc (.lit '!'))
      (.seq (.starCC .anyNotNl) .eol)))))))

/-- `r'^(WARNING:.*)'` with `re.MULTILINE` -/
def warningRe : RE := .seq .bol (.seq (litStr "WARNING:") (.starCC .anyNotNl))

/-- `r'^(ERROR:.*)'` with `re.MULTILINE` -/
def errorRe : RE := .seq .bol (.seq (litStr "ERROR:") (.starCC .anyNotNl))

/-- `r'(\[Plugins already in sorted order. No sorting needed!])'` with
`re.IGNORECASE`; the unescaped `.` after `order` is any non-newline
character. -/
def sortedRe : RE :=
  .seq (litStrCI "[Plugins already in sorted order") (.seq (.cc .anyNotNl)
    (litStrCI " No sorting needed!]"))

/-- `r'^(\*\d+\*\s.*\.(?i)es[mp])'` with `re.MULTILINE` — changed mod order.
No letter occurs before the inline `(?i)`, so scoping it over the whole
pattern or only its tail is equivalent. -/
def changed1Re : RE :=
  .seq .bol (.seq (.cc (.lit '*')) (.seq (.cc .digit) (.seq (.starCC .digit)
    (.seq (.cc (.lit '*')) (.seq (.cc .ws) (.seq (.starCC .anyNotNl)
      (.seq (.cc (.lit '.')) (.seq (.cc (.litCI 'e')) (.seq (.cc (.litCI 's'))
        (.cc (.inSetCI ['m', 'p'])))))))))))

/-- `r'^(\*!\d+\*!\s.*\.(?i)es[mp])'` with `re.MULTILINE` — changed mod order. -/
def changed2Re : RE :=
  .seq .bol (.seq (.cc (.lit '*')) (.seq (.cc (.lit '!')) (.seq (.cc .digit)
    (.seq (.starCC .digit) (.seq (.cc (.lit '*')) (.seq (.cc (.lit '!'))
      (.seq (.cc .ws) (.seq (.starCC .anyNotNl)
        (.seq (.cc (.lit '.')) (.seq (.cc (.litCI 'e')) (.seq (.cc (.litCI 's'))
          (.cc (.inSetCI ['m', 'p'])))))))))))))

/-- The ordered rule list of `colorize_text`, in exact source order. -/
def highlighters : List (RE × (List Char → List Char)) :=
  [ (hideRe, hideRepl),
    (successRe, bg_colors_green),
    (conflictRe, bg_colors_red),
    (urlRe, urlRepl),
    (excl1Re, bg_colors_low),
    (excl2Re, bg_colors_medium),
    (excl3Re, bg_colors_high),
    (warningRe, bg_colors_yellow),
    (errorRe, bg_colors_red),
    (sortedRe, bg_colors_green),
    (changed1Re, bg_colors_yellow),
    (changed2Re, bg_colors_red) ]

/-- `text.replace('\n', '<br>\n')` (qtGui.py line 59). -/
def replaceNl : List Char → List Char
  | [] => []
  | c :: cs => (if c == '\n' then "<br>\n".data else [c]) ++ replaceNl cs

/-- `colorize_text` (qtGui.py lines 24-60): fold the substitutions over the
text in rule order, then tokenize line breaks. -/
def colorize_text (text : String) : String :=
  String.mk (replaceNl (highlighters.foldl (fun t p => reSub p.1 p.2 t) text.data))

/-!
Multi-stream log sink — the three `logging.StreamHandler`s installed on the
root logger by `MloxGui.__init__` (qtGui.py lines 147-170).  A handler
writes a record iff the record's level is at or above the handler's level
and every attached filter accepts it; it then appends the formatted record
plus the `"\n"` terminator to its stream.
-/

inductive LogLevel where
  | DEBUG
  | INFO
  | WARNING
  | ERROR
deriving Repr, DecidableEq

/-- `logging.DEBUG = 10`, `INFO = 20`, `WARNING = 30`, `ERROR = 40`. -/
def levelno : LogLevel → Nat
  | .DEBUG => 10
  | .INFO => 20
  | .WARNING => 30
  | .ERROR => 40

def levelname : LogLevel → String
  | .DEBUG => "DEBUG"
  | .INFO => "INFO"
  | .WARNING => "WARNING"
  | .ERROR => "ERROR"

/-- A log record: severity, logger name, message. -/
structure LogRecord where
  level : LogLevel
  name : String
  msg : String
deriving Repr, DecidableEq

/-- `FilterInfo.filter` (lines 160-163): `record.levelno == logging.INFO`. -/
def FilterInfo_filter (r : LogRecord) : Bool :=
  levelno r.level == levelno .INFO

/-- A `StreamHandler` as configured in `MloxGui.__init__`: a minimum level,
a formatter, and optionally the `FilterInfo` filter. -/
structure GuiHandler where
  level : Nat
  formatter : LogRecord → String
  useFilterInfo : Bool

/-- What one handler writes for one record: the formatted record plus the
`"\n"` terminator when the level threshold and the filters pass, nothing
otherwise. -/
def handlerOutput (h : GuiHandler) (r : LogRecord) : Option String :=
  if h.level ≤ levelno r.level && (!h.useFilterInfo || FilterInfo_filter r) then
    some (h.formatter r ++ "\n")
  else none

/-- `dbg_formatter = logging.Formatter('%(levelname)s (%(name)s): %(message)s')` -/
def dbg_formatter (r : LogRecord) : String :=
  levelname r.level ++ " (" ++ r.name ++ "): " ++ r.msg

/-- `gui_formatter = logging.Formatter('%(levelname)s: %(message)s')` -/
def gui_formatter (r : LogRecord) : String :=
  levelname r.level ++ ": " ++ r.msg

/-- `info_formatter = logging.Formatter('%(message)s')` -/
def info_formatter (r : LogRecord) : String := r.msg

/-- Handler on `self.Dbg`: level DEBUG, level+logger template, no filter. -/
def dbg_log_stream : GuiHandler := ⟨10, dbg_formatter, false⟩

/-- Handler on `self.Stats`: level WARNING, level-only template, no filter. -/
def gui_log_stream : GuiHandler := ⟨30, gui_formatter, false⟩

/-- Handler on `self.Stats`: level INFO, message-only template, `FilterInfo`. -/
def gui_info_stream : GuiHandler := ⟨20, info_formatter, true⟩

/-- The mutable fields of `MloxGui` that the analysis/commit flows touch:
the two stream buffers and the four text/flag fields. -/
structure GuiState where
  Dbg : String
  Stats : String
  New : String
  Old : String
  Msg : String
  can_update : Bool
deriving Repr, DecidableEq

def appendOpt (buf : String) : Option String → String
  | some s => buf ++ s
  | none => buf

/-- Route one record through the three root-logger handlers, in their
registration order: `dbg_log_stream` writes to `Dbg`; `gui_log_stream`
then `gui_info_stream` both write to `Stats`. -/
def emitRecord (st : GuiState) (r : LogRecord) : GuiState :=
  { st with
    Dbg := appendOpt st.Dbg (handlerOutput dbg_log_stream r),
    Stats := appendOpt (appendOpt st.Stats (handlerOutput gui_log_stream r))
      (handlerOutput gui_info_stream r) }

/-- A record emitted through `gui_logger = logging.getLogger('mlox.gui')`. -/
def guiLoggerRecord (lvl : LogLevel) (msg : String) : LogRecord :=
  ⟨lvl, "mlox.gui", msg⟩

/-- The fresh state built by `MloxGui.__init__` (lines 140-145): empty
buffers and text fields, `can_update = True`. -/
def initState : GuiState := ⟨"", "", "", "", "", true⟩

/-!
Analysis orchestrator — `MloxGui.analyze_loadorder` (lines 212-256) and
`MloxGui.commit` (lines 287-297).  The external sorter (`Loadorder`) is an
opaque collaborator: only the results the GUI reads back are modelled.  The
update-availability check is a network call wrapped in `try/except`; its
outcome is a sum: either the release endpoint answered with a final URL, or
anything in the guarded block raised (the `except Exception` arm).
-/

/-- The slice of the external sorter's interface the GUI consumes:
`get_original_order()`, `get_new_order()`, `is_sorted`, and the messages
text returned by `update(progress, False)`. -/
structure Loadorder where
  get_original_order : List String
  get_new_order : List String
  is_sorted : Bool
  update_messages : String
deriving Repr, DecidableEq

/-- Outcome of the guarded update-availability block: `ok url` when
`urllib.request.urlopen(url)` succeeded with final URL `url`, `fail` when
anything in the block raised. -/
inductive UpdateCheck where
  | ok (remote_url : String)
  | fail
deriving Repr, DecidableEq

/-- `remote_url.split('/')[-1]` : the segment after the last slash. -/
def remoteVersionOf (remote_url : String) : String :=
  (remote_url.splitOn "/").getLastD ""

/-- Lines 218-223: truncate `Stats` and clear `New`/`Old`/`Msg`; `Dbg` is
deliberately untouched. -/
def resetOutputs (st : GuiState) : GuiState :=
  { st with Stats := "", New := "", Old := "", Msg := "" }

def updateCheckUrl : String := "https://github.com/rfuzzo/mlox/releases/latest"

/-- The guarded update-check block (lines 229-237): on success, warn iff
the remote version differs from the current one; on any fault, warn that
the check was skipped. -/
def updateCheckStep (st : GuiState) (current_version : String) (upd : UpdateCheck) :
    GuiState :=
  match upd with
  | .ok remote_url =>
    if remoteVersionOf remote_url != current_version then
      emitRecord st (guiLoggerRecord .WARNING
        ("MLOX Update available: " ++ current_version ++ " -> " ++
          remoteVersionOf remote_url ++ ". Link: " ++ remote_url))
    else st
  | .fail =>
    emitRecord st (guiLoggerRecord .WARNING
      ("Unable to connect to " ++ updateCheckUrl ++ ", skipping update check."))

/-- `MloxGui.analyze_loadorder` (lines 212-256) as a state transformer:
reset the transient outputs, log the version banner, run the guarded
update check, take the sorter's messages, accumulate the original and new
orders line by line, and drop `can_update` when the order was already
sorted (the code contains no `else` branch: the flag is only ever lowered
here).  `self.display()` at the end reads state without changing it. -/
def analyze_loadorder (st : GuiState) (current_version : String)
    (upd : UpdateCheck) (lo : Loadorder) : GuiState :=
  let st := resetOutputs st
  let st := emitRecord st (guiLoggerRecord .INFO
    ("Version: " ++ current_version ++ "\t\t\t\t Hello! "))
  let st := updateCheckStep st current_version upd
  let st := { st with Msg := lo.update_messages }
  let st := { st with Old := lo.get_original_order.foldl (fun a p => a ++ p ++ "\n") st.Old }
  let st := { st with New := lo.get_new_order.foldl (fun a p => a ++ p ++ "\n") st.New }
  { st with can_update := if lo.is_sorted then false else st.can_update }

/-- Result of one `commit()` invocation: the state afterwards, how many
times `self.lo.write_new_order()` ran, and whether `self.display()` ran. -/
structure CommitResult where
  state : GuiState
  write_calls : Nat
  displayed : Bool
deriving Repr, DecidableEq

/-- `MloxGui.commit` (lines 287-297): refuse with an ERROR record when
`can_update` is false; otherwise write the new order, log the success
banner at INFO, and lower `can_update`.  Both paths refresh the display. -/
def commit (st : GuiState) : CommitResult :=
  if !st.can_update then
    ⟨emitRecord st (guiLoggerRecord .ERROR
      "Attempted an update, when no update is possible/needed."), 0, true⟩
  else
    let st := emitRecord st (guiLoggerRecord .INFO "SUCCESS: LOAD ORDER UPDATED!")
    ⟨{ st with can_update := false }, 1, true⟩

/-!
Shared auxiliary lemmas.
-/

/-- The guarded update-check block only ever touches the two log buffers:
`New`, `Old`, `Msg` and `can_update` pass through it unchanged. -/
theorem updateCheckStep_frame (st : GuiState) (v : String) (upd : UpdateCheck) :
    (updateCheckStep st v upd).New = st.New ∧ (updateCheckStep st v upd).Old = st.Old ∧
    (updateCheckStep st v upd).Msg = st.Msg ∧
    (updateCheckStep st v upd).can_update = st.can_update := by
  cases upd with
  | ok url =>
    simp only [updateCheckStep]
    split <;> exact ⟨rfl, rfl, rfl, rfl⟩
  | fail => exact ⟨rfl, rfl, rfl, rfl⟩

/-- Claim C4: an INFO record reaches the tagless info stream as the bare
message and the debug stream with the level+logger prefix; a WARNING record
reaches both the stats stream (level prefix) and the debug stream, but is
rejected by the exact-INFO filter of the info stream. -/
theorem handler_routing_info_warning (name msg : String) :
    handlerOutput gui_info_stream ⟨.INFO, name, msg⟩ = some (msg ++ "\n") ∧
    handlerOutput dbg_log_stream ⟨.INFO, name, msg⟩ =
      some (("INFO" ++ " (" ++ name ++ "): " ++ msg) ++ "\n") ∧
    handlerOutput gui_log_stream ⟨.WARNING, name, msg⟩ =
      some (("WARNING" ++ ": " ++ msg) ++ "\n") ∧
    handlerOutput dbg_log_stream ⟨.WARNING, name, msg⟩ =
      some (("WARNING" ++ " (" ++ name ++ "): " ++ msg) ++ "\n") ∧
    handlerOutput gui_info_stream ⟨.WARNING, name, msg⟩ = none :=
  ⟨rfl, rfl, rfl, rfl, rfl⟩

/-- Claim C5: the RESET step of an analysis pass truncates the stats buffer
and clears the messages, old-order and new-order fields, and leaves the
accumulated debug transcript untouched. -/
theorem resetOutputs_frame (st : GuiState) :
    (resetOutputs st).Stats = "" ∧ (resetOutputs st).Msg = "" ∧
    (resetOutputs st).Old = "" ∧ (resetOutputs st).New = "" ∧
    (resetOutputs st).Dbg = st.Dbg :=
  ⟨rfl, rfl, rfl, rfl, rfl⟩

/-- Claim C3, counterexample: with the flag already false before the pass
and a sorter that is not sorted, the pass leaves the flag false, not
`not is_sorted` — the code lowers the flag but never raises it. -/
theorem analyze_loadorder_can_update_not_negation :
    ¬ ((analyze_loadorder ⟨"", "", "", "", "", false⟩ "0.0" .fail
        ⟨["A.esp"], ["B.esp"], false, "msgs"⟩).can_update
      = !(⟨["A.esp"], ["B.esp"], false, "msgs"⟩ : Loadorder).is_sorted) := by
  decide

/-- Claim C3, amended: after an analysis pass the flag is false when the
sorter reports `is_sorted`, and otherwise keeps the value it had before the
pass (true in particular after `__init__` or `reload`, which set it true). -/
theorem analyze_loadorder_can_update_eq (st : GuiState) (v : String)
    (upd : UpdateCheck) (lo : Loadorder) :
    (analyze_loadorder st v upd lo).can_update
      = if lo.is_sorted then false else st.can_update := by
  simp only [analyze_loadorder]
  rw [(updateCheckStep_frame _ v upd).2.2.2]
  rfl

/-- Claim C6: invoking commit while the flag is false emits an ERROR
record into the debug and stats streams, calls `write_new_order` zero
times, leaves `New`/`Old`/`Msg`/`can_update` untouched, and refreshes the
presentation. -/
theorem commit_rejected_when_cannot_update (st : GuiState)
    (h : st.can_update = false) :
    commit st =
      ⟨{ st with
          Dbg := st.Dbg ++ (("ERROR" ++ " (" ++ "mlox.gui" ++ "): " ++
            "Attempted an update, when no update is possible/needed.") ++ "\n"),
          Stats := st.Stats ++ (("ERROR" ++ ": " ++
            "Attempted an update, when no update is possible/needed.") ++ "\n") },
        0, true⟩ := by
  have hc : (!st.can_update) = true := by rw [h]; rfl
  simp only [commit, hc]
  rfl

/-- Claim C6, witness: the rejected commit evaluated on a concrete state. -/
theorem commit_rejected_when_cannot_update_witness :
    commit ⟨"D", "S", "N", "O", "M", false⟩ =
      ⟨⟨"DERROR (mlox.gui): Attempted an update, when no update is possible/needed.\n",
        "SERROR: Attempted an update, when no update is possible/needed.\n",
        "N", "O", "M", false⟩, 0, true⟩ :=
  (commit_rejected_when_cannot_update ⟨"D", "S", "N", "O", "M", false⟩ rfl).trans (by decide)

/-- Claim C10: invoking commit while the flag is true calls
`write_new_order` exactly once, emits the INFO success banner (bare in the
stats stream, prefixed in the debug stream), lowers the flag, and refreshes
the presentation; a second commit immediately afterwards performs zero
writes. -/
theorem commit_success_writes_once (st : GuiState) (h : st.can_update = true) :
    commit st =
      ⟨{ st with
          Dbg := st.Dbg ++ (("INFO" ++ " (" ++ "mlox.gui" ++ "): " ++
            "SUCCESS: LOAD ORDER UPDATED!") ++ "\n"),
          Stats := st.Stats ++ ("SUCCESS: LOAD ORDER UPDATED!" ++ "\n"),
          can_update := false },
        1, true⟩ ∧
    (commit (commit st).state).write_calls = 0 := by
  have h1 : commit st =
      ⟨{ st with
          Dbg := st.Dbg ++ (("INFO" ++ " (" ++ "mlox.gui" ++ "): " ++
            "SUCCESS: LOAD ORDER UPDATED!") ++ "\n"),
          Stats := st.Stats ++ ("SUCCESS: LOAD ORDER UPDATED!" ++ "\n"),
          can_update := false },
        1, true⟩ := by
    have hc : (!st.can_update) = false := by rw [h]; rfl
    simp only [commit, hc]
    rfl
  exact ⟨h1, by rw [h1]; rfl⟩

/-- Claim C10, witness: a successful commit, then an immediately repeated
one, evaluated on a concrete state. -/
theorem commit_success_writes_once_witness :
    commit ⟨"D", "S", "N", "O", "M", true⟩ =
      ⟨⟨"DINFO (mlox.gui): SUCCESS: LOAD ORDER UPDATED!\n",
        "SSUCCESS: LOAD ORDER UPDATED!\n", "N", "O", "M", false⟩, 1, true⟩ ∧
    (commit (commit ⟨"D", "S", "N", "O", "M", true⟩).state).write_calls = 0 :=
  ⟨(commit_success_writes_once ⟨"D", "S", "N", "O", "M", true⟩ rfl).1.trans (by decide),
    (commit_success_writes_once ⟨"D", "S", "N", "O", "M", true⟩ rfl).2⟩

/-- Claim C9: when the update-availability check faults, the fault is
absorbed inside the pass: a WARNING record lands in the debug and stats
streams and the pass still runs to completion — the sorter's messages and
both order listings are collected and the flag is updated exactly as in a
pass without the fault. -/
theorem analyze_loadorder_update_fault_nonfatal (st : GuiState) (v : String)
    (lo : Loadorder) :
    analyze_loadorder st v .fail lo =
      { Dbg := (st.Dbg ++ (("INFO" ++ " (" ++ "mlox.gui" ++ "): " ++
            ("Version: " ++ v ++ "\t\t\t\t Hello! ")) ++ "\n")) ++
          (("WARNING" ++ " (" ++ "mlox.gui" ++ "): " ++
            ("Unable to connect to " ++ "https://github.com/rfuzzo/mlox/releases/latest" ++
              ", skipping update check.")) ++ "\n"),
        Stats := ("" ++ (("Version: " ++ v ++ "\t\t\t\t Hello! ") ++ "\n")) ++
          (("WARNING" ++ ": " ++ ("Unable to connect to " ++
            "https://github.com/rfuzzo/mlox/releases/latest" ++
            ", skipping update check.")) ++ "\n"),
        Msg := lo.update_messages,
        Old := lo.get_original_order.foldl (fun a p => a ++ p ++ "\n") "",
        New := lo.get_new_order.foldl (fun a p => a ++ p ++ "\n") "",
        can_update := if lo.is_sorted then false else st.can_update } := by
  rfl

/-- Claim C7: from a fresh session, a pass over a sorter reporting original
order `A.esp, B.esp`, new order `B.esp, A.esp` and not already sorted
leaves the old order as `"A.esp\nB.esp\n"`, the new order as
`"B.esp\nA.esp\n"`, and the flag raised. -/
theorem analyze_loadorder_two_plugin_pass (v : String) (upd : UpdateCheck)
    (msgs : String) :
    (analyze_loadorder initState v upd
        ⟨["A.esp", "B.esp"], ["B.esp", "A.esp"], false, msgs⟩).Old = "A.esp\nB.esp\n" ∧
    (analyze_loadorder initState v upd
        ⟨["A.esp", "B.esp"], ["B.esp", "A.esp"], false, msgs⟩).New = "B.esp\nA.esp\n" ∧
    (analyze_loadorder initState v upd
        ⟨["A.esp", "B.esp"], ["B.esp", "A.esp"], false, msgs⟩).can_update = true := by
  refine ⟨?_, ?_, ?_⟩ <;>
    cases upd with
    | fail => rfl
    | ok url =>
      simp only [analyze_loadorder, updateCheckStep]
      first
      | split <;> rfl
      | · rw [if_neg (by decide : ¬ false = true)]
          split <;> rfl

/-- If a pattern matches nowhere in the scanned suffix, the substitution
scan copies that suffix unchanged. -/
theorem subScan_eq_of_no_match (r : RE) (f : List Char → List Char) :
    ∀ (fuel : Nat) (b : Bool) (s : List Char),
    hasMatchAux r fuel b s = false → subScan r f fuel b s = s := by
  intro fuel
  induction fuel with
  | zero =>
    intro b s h
    cases s <;> rfl
  | succ n ih =>
    intro b s h
    cases s with
    | nil => rfl
    | cons c cs =>
      simp only [hasMatchAux] at h
      cases htm : tryMatch r b (c :: cs) with
      | some p =>
        rw [htm] at h
        simp at h
      | none =>
        rw [htm] at h
        simp only [Option.isSome_none, Bool.false_or] at h
        simp only [subScan, htm]
        exact congrArg (c :: ·) (ih _ _ h)

/-- If a pattern matches nowhere in a text, its `re.sub` is the identity. -/
theorem reSub_eq_of_no_match (r : RE) (f : List Char → List Char)
    (s : List Char) (h : hasMatch r s = false) : reSub r f s = s :=
  subScan_eq_of_no_match r f s.length true s h

/-- Claim C8: colorizing the empty text yields the empty text, and on any
text in which none of the twelve patterns matches, colorizing only
replaces each line break by the `<br>` line-break token. -/
theorem colorize_text_empty_and_nomatch :
    colorize_text "" = "" ∧
    ∀ s : String, (highlighters.all fun p => !hasMatch p.1 s.data) = true →
      colorize_text s = String.mk (replaceNl s.data) := by
  refine ⟨rfl, ?_⟩
  intro s h
  simp only [highlighters, List.all_cons, List.all_nil, Bool.and_eq_true,
    Bool.not_eq_true'] at h
  obtain ⟨h1, h2, h3, h4, h5, h6, h7, h8, h9, h10, h11, h12, -⟩ := h
  unfold colorize_text
  simp only [highlighters, List.foldl_cons, List.foldl_nil]
  rw [reSub_eq_of_no_match _ _ _ h1, reSub_eq_of_no_match _ _ _ h2,
    reSub_eq_of_no_match _ _ _ h3, reSub_eq_of_no_match _ _ _ h4,
    reSub_eq_of_no_match _ _ _ h5, reSub_eq_of_no_match _ _ _ h6,
    reSub_eq_of_no_match _ _ _ h7, reSub_eq_of_no_match _ _ _ h8,
    reSub_eq_of_no_match _ _ _ h9, reSub_eq_of_no_match _ _ _ h10,
    reSub_eq_of_no_match _ _ _ h11, reSub_eq_of_no_match _ _ _ h12]

/-- Claim C8, witness: a concrete pattern-free text is only line-break
tokenized. -/
theorem colorize_text_empty_and_nomatch_witness :
    (highlighters.all fun p => !hasMatch p.1 "hello world\nfoo".data) = true ∧
    colorize_text "hello world\nfoo" = "hello world<br>\nfoo" := by
  have h : (highlighters.all fun p => !hasMatch p.1 "hello world\nfoo".data) = true := by
    decide
  exact ⟨h, (colorize_text_empty_and_nomatch.2 "hello world\nfoo" h).trans (by decide)⟩

set_option maxRecDepth 32768 in
/-- Claim C1: the three-line input `!x`, `!!x`, `!!!x` gets each line
wrapped exactly once, but the three-mark line receives the medium
background `rgb(255,255,180)`, not the high background `rgb(125,220,240)`:
the two-mark pattern `!{2}.*` already matches a `!!!` line (its `.*`
absorbs the third mark), and the three-mark rule, which runs after it, can
no longer match the rewritten line.  The high rule of the source is dead
code for such input, contradicting its own `'!!!'` comment. -/
theorem colorize_text_excl_marks_eval :
    colorize_text "!x\n!!x\n!!!x" =
      "<span style=\x27background-color: rgb(255,180,180);\x27>!x</span><br>\n" ++
      "<span style=\x27background-color: rgb(255,255,180);\x27>!!x</span><br>\n" ++
      "<span style=\x27background-color: rgb(255,255,180);\x27>!!!x</span>" := by
  decide

set_option maxRecDepth 32768 in
/-- Claim C2, counterexample: a URL inside a `<hide>` span is still
linkified by the later URL rule; worse, the URL pattern's `[^\s]*` swallows
the hide span's closing tag into the link. -/
theorem colorize_text_hidden_url_linkified :
    colorize_text "<hide>https://x</hide>" =
      "<span style=\x27color: black; background-color: black;\x27>" ++
      "<a href=\x27https://x</span>\x27>https://x</span></a>" := by
  decide

set_option maxRecDepth 32768 in
/-- Claim C2, amended: the hide rule rewrites the hidden content into a
single zero-contrast span and later line-anchored rules do not re-match the
transformed line, but a URL inside the hidden content is still wrapped in a
link by the URL rule (inside the zero-contrast span when whitespace
separates it from the closing delimiter). -/
theorem colorize_text_hidden_url_in_zero_contrast_span :
    colorize_text "<hide>go to https://example.com now</hide>" =
      "<span style=\x27color: black; background-color: black;\x27>go to " ++
      "<a href=\x27https://example.com\x27>https://example.com</a> now</span>" := by
  decide
